import Mathlib

/-!
# cycles.c: counting CPU cycles over a sampling window

A shallow embedding of `src/cycles.c`.  Numeric code is embedded over exact
rationals; 64-bit and 32-bit machine integers are `Nat` / `Int` with explicit
reduction modulo the word size.

`main` is embedded as a function of the successive returns of `getopt_long`
(option character and `optarg`), in command-line order: turning `argv` into that
sequence is the work of the C library.  What the program does to its
surroundings is recorded in a `Run`: exit status, standard output, the
processor handed to the affinity call, the number of counter reads and the
argument received by `sleep`.
-/

namespace Cycles

/-! ## Frequency scaling -/

/-- The enumeration `enum prefixes {kilo, mega, giga}`. -/
inductive prefixes where
  | kilo
  | mega
  | giga
  deriving DecidableEq, Repr

/-- Left-associative division chain `x / d₁ / d₂ / ...`, the way C parses an
unparenthesised sequence of `/` operators. -/
def divChain (x : ℚ) (ds : List ℚ) : ℚ :=
  ds.foldl (fun acc d => acc / d) x

/-- The object-like macro `#define KILO 1000`, as the operands it contributes
to the division chain it is pasted into. -/
def KILO : List ℚ := [1000]

/-- The object-like macro `#define MEGA KILO/1000`: the replacement text is
pasted without parentheses, so it contributes the operands of `KILO` followed
by one more `/ 1000`. -/
def MEGA : List ℚ := KILO ++ [1000]

/-- The object-like macro `#define GIGA MEGA/1000`. -/
def GIGA : List ℚ := MEGA ++ [1000]

/-- The function `scale`: `value / sample_time / X` with the macro `X` expanded
textually.  `value` (a `uint64_t`) is converted to `double` by the first
division, so every division is a floating division, read here over `ℚ`.
The `default: return -1` arm is unreachable for the three enumerators. -/
def scale (factor : prefixes) (value : Nat) (sample_time : ℚ) : ℚ :=
  match factor with
  | .kilo => divChain ((value : ℚ) / sample_time) KILO
  | .mega => divChain ((value : ℚ) / sample_time) MEGA
  | .giga => divChain ((value : ℚ) / sample_time) GIGA

/-- The scale factors as section 4.4 of the specification words them:
1 for kilo, 1 for mega, 1 for giga. -/
def scale_factor_spec (_factor : prefixes) : ℚ := 1

/-- The divisor the code applies for each metric. -/
def scale_factor (factor : prefixes) : ℚ :=
  match factor with
  | .kilo => 1000
  | .mega => 1000000
  | .giga => 1000000000

/-! ## Machine values -/

/-- A `double`, as far as the tests `x <= 0` and `!x` of `main` can tell values
apart: a finite value (read exactly), an infinity, or a NaN. -/
inductive CDouble where
  | fin (q : ℚ)
  | pinf
  | ninf
  | nan
  deriving DecidableEq

/-- The C test `x <= 0` on a `double` (false for a NaN). -/
def CDouble.le_zero : CDouble → Bool
  | .fin q => decide (q ≤ 0)
  | .ninf => true
  | .pinf => false
  | .nan => false

/-- The C test `!x` on a `double`: true exactly for a zero. -/
def CDouble.is_zero : CDouble → Bool
  | .fin q => decide (q = 0)
  | _ => false

/-- The implicit conversion `double -> unsigned int` applied to the argument of
`sleep`: the fractional part is discarded.  Values whose integral part does not
fit 32 bits, infinities and NaN are undefined in C; they are reduced modulo
`2^32`, respectively sent to `0`, here. -/
def CDouble.toUnsigned : CDouble → Nat
  | .fin q => ⌊q⌋.toNat % 2 ^ 32
  | _ => 0

/-- The implicit conversion `long -> int` of `cpu_id = strtol(...)`:
reduction to the 32-bit two's complement range. -/
def int_of_long (x : Int) : Int :=
  (x + 2 ^ 31) % 2 ^ 32 - 2 ^ 31

/-- A `uint64_t` argument consumed by a `%ld` conversion: the same 64 bits read
as a signed `long`. -/
def asLong (x : Nat) : Int :=
  if x % 2 ^ 64 < 2 ^ 63 then ((x % 2 ^ 64 : Nat) : Int)
  else ((x % 2 ^ 64 : Nat) : Int) - 2 ^ 64

/-- The subtraction `end - start` on `uint64_t`. -/
def sub64 (end_ start : Nat) : Nat :=
  (end_ % 2 ^ 64 + 2 ^ 64 - start % 2 ^ 64) % 2 ^ 64

/-! ## C library functions used by `main` -/

/-- The constant `LONG_MAX` of an LP64 platform. -/
def LONG_MAX : Int := 2 ^ 63 - 1

/-- The constant `LONG_MIN` of an LP64 platform. -/
def LONG_MIN : Int := -(2 ^ 63)

/-- The classifier `isspace` in the C locale. -/
def isspace (c : Char) : Bool :=
  c = ' ' || c = '\t' || c = '\n' || c = '\x0b' || c = '\x0c' || c = '\r'

/-- The value of the longest prefix of decimal digits of `cs` (`0` when there
is none). -/
def digitsValue (cs : List Char) : Nat :=
  (cs.takeWhile Char.isDigit).foldl (fun acc c => 10 * acc + (c.toNat - 48)) 0

/-- The library call `strtol(nptr, &endptr, 10)` as ISO C defines its return
value: leading white space is skipped, one optional sign is read, then the
longest run of decimal digits; with no digits the result is `0`; a value out of
the range of `long` is clamped to `LONG_MIN` / `LONG_MAX`. -/
def strtol (nptr : String) : Int :=
  match nptr.data.dropWhile isspace with
  | '-' :: rest => max LONG_MIN (-(digitsValue rest : Int))
  | '+' :: rest => min LONG_MAX (digitsValue rest : Int)
  | rest => min LONG_MAX (digitsValue rest : Int)

/-- The length `strlen(s)` of a C string (argument strings hold no NUL). -/
def strlen (s : String) : Nat := s.data.length

/-- The character `s[i]` of a C string; the terminating NUL past the end. -/
def charAt (s : String) (i : Nat) : Char := s.data.getD i '\x00'

/-! ## The program -/

/-- One item written by `printf`: literal text, or one conversion together
with its argument. -/
inductive Printed where
  | text (s : String)
  | d (x : Int)
  | ld (width : Nat) (x : Int)
  | lf (width : Nat) (x : CDouble)
  | lf_scale (factor : prefixes) (value : Nat) (sample_time : CDouble)
  | s (width : Nat) (str : String)
  deriving DecidableEq

/-- What the program cannot compute by itself: its name, the library
conversion `strtod`, whether `sched_setaffinity` succeeds for a processor, the
two `uint64_t` values returned by `rdtsc`, and the indeterminate initial
contents of the uninitialised locals `metric` and `metric_pfx`. -/
structure Env where
  program : String
  strtod : String → CDouble
  affinity_ok : Int → Bool
  tsc_start : Nat
  tsc_end : Nat
  metric0 : prefixes
  metric_pfx0 : String

/-- One return of `getopt_long`: the option character and `optarg`. -/
structure GetoptResult where
  arg : Char
  optarg : String
  deriving DecidableEq

/-- The locals of `main` that the option loop updates. -/
structure MainState where
  sample : CDouble
  metric : prefixes
  cpu_id : Int
  hertz : Bool
  pflag : Bool
  verbose : Bool
  metric_pfx : String

/-- A call of `exit` before the measurement: status, what was printed to
standard output so far, and the locals at that moment. -/
structure Exit where
  code : Nat
  stdout : List Printed
  st : MainState

/-- The observable behaviour of one execution. -/
structure Run where
  exit_code : Nat
  stdout : List Printed
  affinity : Option Int
  counter_reads : Nat
  slept : Option Nat

/-- The constant `EXIT_SUCCESS`. -/
def EXIT_SUCCESS : Nat := 0

/-- The constant `EXIT_FAILURE`. -/
def EXIT_FAILURE : Nat := 1

/-- The function `bail`: `perror` writes to standard error (not recorded),
then `exit(EXIT_FAILURE)`. -/
def bail (st : MainState) : Exit :=
  { code := EXIT_FAILURE, stdout := [], st := st }

/-- The function `usage`. -/
def usage (program : String) (intro : Bool) : List Printed :=
  (if intro then
    [.s 0 program, .text ": Count the (approximate) number of CPU cycles.\n"]
   else []) ++
  [.text "usage:\n    ", .s 0 program,
   .text (" --time N [--proc P] [--freq [--prefix]]\n" ++
     "arguments (`*' - required argument):\n" ++
     "    -t/--time    * sampling interval (in seconds)*\n" ++
     "    -c/--proc      processor number to set the thread affinity\n" ++
     "    -f/--freq      display the frequency for the processor\n" ++
     "    -p/--prefix    metric prefix for the frequency (in Hz)\n" ++
     "                   should be one of: \x7bkhz, mhz, ghz\x7d\n" ++
     "    -h/--help      prints this help menu\n" ++
     "    -v/--verbose   verbose output\n")]

/-- The locals of `main` on entry to the option loop. -/
def init (env : Env) : MainState :=
  { sample := .fin 0, metric := env.metric0, cpu_id := 0, hertz := false,
    pflag := false, verbose := false, metric_pfx := env.metric_pfx0 }

/-- The body of `switch (arg)` in the option loop of `main`.  The local `errno`
declared in `main` is assigned `0` and tested; no library call writes to it. -/
def option_case (env : Env) (st : MainState) (r : GetoptResult) :
    Except Exit MainState :=
  if r.arg = 't' then
    let errno : Int := 0
    let st := { st with sample := env.strtod r.optarg }
    if errno ≠ 0 then .error (bail st)
    else if st.sample.le_zero then
      .error { code := EXIT_FAILURE,
               stdout := [.text "error: sample time should be a positive value\n"],
               st := st }
    else .ok st
  else if r.arg = 'c' then
    let errno : Int := 0
    let st := { st with cpu_id := int_of_long (strtol r.optarg) }
    if errno ≠ 0 then .error (bail st)
    else if st.cpu_id < 0 || errno ≠ 0 then
      .error { code := EXIT_FAILURE,
               stdout := [.text "error: processor should be a positive integer\n"],
               st := st }
    else .ok st
  else if r.arg = 'f' then
    .ok { st with hertz := true }
  else if r.arg = 'p' then
    if strlen r.optarg = 3 && charAt r.optarg 1 = 'h' && charAt r.optarg 2 = 'z' then
      if charAt r.optarg 0 = 'k' then
        .ok { st with metric := .kilo, pflag := true, metric_pfx := r.optarg }
      else if charAt r.optarg 0 = 'm' then
        .ok { st with metric := .mega, pflag := true, metric_pfx := r.optarg }
      else if charAt r.optarg 0 = 'g' then
        .ok { st with metric := .giga, pflag := true, metric_pfx := r.optarg }
      else
        .error { code := EXIT_FAILURE,
                 stdout := [.text "error: illegal metric prefix `", .s 0 r.optarg,
                            .text "'\n"],
                 st := st }
    else
      .error { code := EXIT_FAILURE,
               stdout := [.text "error: illegal metric `", .s 0 r.optarg, .text "'\n"],
               st := st }
  else if r.arg = 'h' then
    .error { code := EXIT_SUCCESS, stdout := usage env.program true, st := st }
  else if r.arg = 'v' then
    .ok { st with verbose := true }
  else if r.arg = '?' then
    .ok st
  else
    .error { code := EXIT_FAILURE, stdout := [], st := st }

/-- The loop `while (1)` of `main` over the successive returns of
`getopt_long`; the list ends where `getopt_long` returns `-1`. -/
def option_loop (env : Env) (st : MainState) :
    List GetoptResult → Except Exit MainState
  | [] => .ok st
  | r :: rest =>
    match option_case env st r with
    | .error e => .error e
    | .ok st1 => option_loop env st1 rest

/-- The two checks of `main` that follow the option loop. -/
def validate (st : MainState) : Except Exit MainState :=
  if st.sample.is_zero then
    .error { code := EXIT_FAILURE,
             stdout := [.text "error: `--time' is a required argument\n"],
             st := st }
  else if (!st.pflag && st.hertz) || (st.pflag && !st.hertz) then
    .error { code := EXIT_FAILURE,
             stdout := [.text ("error: missing `--freq' switch or " ++
                               "`--prefix' argument (need both)\n")],
             st := st }
  else .ok st

/-- The measurement stage of `main`: pin to `cpu_id`, read the counter, sleep,
read the counter, subtract, print. -/
def measure (env : Env) (st : MainState) : Run :=
  if !env.affinity_ok st.cpu_id then
    { exit_code := EXIT_FAILURE, stdout := [], affinity := some st.cpu_id,
      counter_reads := 0, slept := none }
  else
    let start := env.tsc_start
    let seconds := st.sample.toUnsigned
    let end_ := env.tsc_end
    let delta := sub64 end_ start
    let out : List Printed :=
      if !st.hertz then
        if st.verbose then
          [.text "processor_id    | ", .d st.cpu_id,
           .text "\nsample_time     | ", .lf 4 st.sample,
           .text "\ncycles_elapsed  | ", .ld 4 (asLong delta),
           .text "\nstart_timestamp | ", .ld 4 (asLong start),
           .text "\nend_timestamp   | ", .ld 4 (asLong end_),
           .text "\n"]
        else
          [.ld 0 (asLong delta), .text "\n"]
      else
        if st.verbose then
          [.text "processor_id    | ", .d st.cpu_id,
           .text "\nsample_time     | ", .lf 0 st.sample,
           .text "\nfrequency_", .s 3 st.metric_pfx,
           .text "   | ", .lf_scale st.metric delta st.sample,
           .text "\ncycles_elapsed  | ", .ld 0 (asLong delta),
           .text "\nstart_timestamp | ", .ld 0 (asLong start),
           .text "\nend_timestamp   | ", .ld 0 (asLong end_),
           .text "\n"]
        else
          [.lf_scale st.metric delta st.sample, .text "\n"]
    { exit_code := 0, stdout := out, affinity := some st.cpu_id,
      counter_reads := 2, slept := some seconds }

/-- The behaviour of an execution that exits before the measurement. -/
def Run.ofExit (e : Exit) : Run :=
  { exit_code := e.code, stdout := e.stdout, affinity := none,
    counter_reads := 0, slept := none }

/-- The function `main`, on the sequence of option returns that `getopt_long`
produces for the command line. -/
def main (env : Env) (args : List GetoptResult) : Run :=
  match option_loop env (init env) args with
  | .error e => Run.ofExit e
  | .ok st =>
    match validate st with
    | .error e => Run.ofExit e
    | .ok st1 => measure env st1

/-- The text a `%ld` conversion of minimum field width `width` produces. -/
def fmt_ld (width : Nat) (x : Int) : String :=
  let body := toString x
  String.mk (List.replicate (width - body.length) ' ') ++ body

/-- The text of an output made of literal text, `%ld` and `%s` items only
(`none` when a floating conversion occurs). -/
def render : List Printed → Option String
  | [] => some ""
  | .text s :: rest => (render rest).map (fun r => s ++ r)
  | .ld w x :: rest => (render rest).map (fun r => fmt_ld w x ++ r)
  | .d x :: rest => (render rest).map (fun r => toString x ++ r)
  | .s w str :: rest =>
    (render rest).map (fun r =>
      String.mk (List.replicate (w - str.length) ' ') ++ str ++ r)
  | .lf _ _ :: _ => none
  | .lf_scale _ _ _ :: _ => none

/-- An environment for the worked examples: `strtod` maps the texts used in
them (`1`, `2`, `1.5`, `0.5`, `0`) to the values they denote, the affinity call
succeeds, and the second counter reading lies 2000 cycles behind the first. -/
def sampleEnv : Env :=
  { program := "cycles",
    strtod := fun s =>
      if s = "1" then .fin 1 else if s = "2" then .fin 2
      else if s = "1.5" then .fin (3 / 2) else if s = "0.5" then .fin (1 / 2)
      else .fin 0,
    affinity_ok := fun _ => true,
    tsc_start := 5000,
    tsc_end := 3000,
    metric0 := .kilo,
    metric_pfx0 := "" }

/-- The environment `sampleEnv` with counter readings 1000 and `2^63 + 1000`:
the second reading is the larger one. -/
def lateEnv : Env :=
  { sampleEnv with tsc_start := 1000, tsc_end := 9223372036854776808 }

/-! ## Scaling theorems -/

theorem divChain_KILO (x : ℚ) : divChain x KILO = x / 1000 := by
  simp [divChain, KILO]

theorem divChain_MEGA (x : ℚ) : divChain x MEGA = x / 1000 / 1000 := by
  simp [divChain, MEGA, KILO]

theorem divChain_GIGA (x : ℚ) : divChain x GIGA = x / 1000 / 1000 / 1000 := by
  simp [divChain, GIGA, MEGA, KILO]

theorem scale_eq (factor : prefixes) (v : Nat) (t : ℚ) :
    scale factor v t = (v : ℚ) / t / scale_factor factor := by
  cases factor
  · simp [scale, scale_factor, divChain_KILO]
  · simp only [scale, scale_factor, divChain_MEGA]
    ring
  · simp only [scale, scale_factor, divChain_GIGA]
    ring

/-- C1 (as stated, refuted): with `v = 1000` cycles in `t = 1` second the kilo
scaling is `1`, not `v / t / 1 = 1000`, and the mega scaling differs from the
kilo scaling. -/
theorem scale_factor_one_refuted :
    scale .kilo 1000 1 ≠ (1000 : ℚ) / 1 / scale_factor_spec .kilo ∧
    scale .mega 1000 1 ≠ scale .kilo 1000 1 ∧
    scale .giga 1000 1 ≠ scale .kilo 1000 1 := by
  simp only [scale_eq, scale_factor, scale_factor_spec]
  norm_num

/-- C1 (amended): for every metric prefix `p`, every 64-bit cycle delta `v` and
every positive duration `t`, `scale p v t = v / t / scale_factor p` with
`scale_factor` equal to `1000`, `1000000`, `1000000000` for kilo, mega, giga;
the mega and the giga scaling equal the kilo scaling only when `v = 0`. -/
theorem scale_divides_by_scale_factor (p : prefixes) (v : Nat) (t : ℚ)
    (_hv : v < 2 ^ 64) (ht : 0 < t) :
    scale p v t = (v : ℚ) / t / scale_factor p ∧
    scale_factor .kilo = 1000 ∧ scale_factor .mega = 1000000 ∧
    scale_factor .giga = 1000000000 ∧
    (scale .mega v t = scale .kilo v t ↔ v = 0) ∧
    (scale .giga v t = scale .kilo v t ↔ v = 0) := by
  refine ⟨scale_eq p v t, rfl, rfl, rfl, ?_, ?_⟩
  · simp only [scale_eq, scale_factor]
    constructor
    · intro h
      have h2 : (v : ℚ) / t = 0 := by linarith
      rcases div_eq_zero_iff.mp h2 with h3 | h3
      · exact_mod_cast h3
      · exact absurd h3 (ne_of_gt ht)
    · intro h; subst h; simp
  · simp only [scale_eq, scale_factor]
    constructor
    · intro h
      have h2 : (v : ℚ) / t = 0 := by linarith
      rcases div_eq_zero_iff.mp h2 with h3 | h3
      · exact_mod_cast h3
      · exact absurd h3 (ne_of_gt ht)
    · intro h; subst h; simp

/-- Witness for C1 (amended) at giga, `v = 3000000000`, `t = 3/2`. -/
theorem scale_divides_by_scale_factor_witness :
    (3000000000 : Nat) < 2 ^ 64 ∧ (0 : ℚ) < 3 / 2 ∧
    scale .giga 3000000000 (3 / 2) = ((3000000000 : Nat) : ℚ) / (3 / 2) / scale_factor .giga :=
  ⟨by norm_num, by norm_num,
    (scale_divides_by_scale_factor .giga 3000000000 (3 / 2) (by norm_num) (by norm_num)).1⟩

/-- C10: for every 64-bit cycle delta `v` and positive duration `t`, over exact
rationals, `scale kilo v t = v / t / 10^3`, `scale mega v t = v / t / 10^6`,
`scale giga v t = v / t / 10^9`, hence
`scale kilo v t = 1000 * scale mega v t = 10^6 * scale giga v t`. -/
theorem scale_powers_of_ten (v : Nat) (t : ℚ) (_hv : v < 2 ^ 64) (_ht : 0 < t) :
    scale .kilo v t = (v : ℚ) / t / 10 ^ 3 ∧
    scale .mega v t = (v : ℚ) / t / 10 ^ 6 ∧
    scale .giga v t = (v : ℚ) / t / 10 ^ 9 ∧
    scale .kilo v t = 1000 * scale .mega v t ∧
    scale .kilo v t = 10 ^ 6 * scale .giga v t := by
  simp only [scale_eq, scale_factor]
  refine ⟨by norm_num, by norm_num, by norm_num, by ring, by ring⟩

/-- Witness for C10 at `v = 2400000000`, `t = 1`. -/
theorem scale_powers_of_ten_witness :
    (2400000000 : Nat) < 2 ^ 64 ∧ (0 : ℚ) < 1 ∧
    scale .mega 2400000000 1 = ((2400000000 : Nat) : ℚ) / 1 / 10 ^ 6 ∧
    scale .mega 2400000000 1 = 2400 :=
  ⟨by norm_num, by norm_num,
    (scale_powers_of_ten 2400000000 1 (by norm_num) (by norm_num)).2.1,
    by rw [(scale_powers_of_ten 2400000000 1 (by norm_num) (by norm_num)).2.1]; norm_num⟩

/-! ## The option loop -/

theorem option_loop_append (env : Env) (st st1 : MainState) (pre : List GetoptResult)
    (r : GetoptResult) (post : List GetoptResult)
    (h : option_loop env st pre = .ok st1) :
    option_loop env st (pre ++ r :: post) =
      match option_case env st1 r with
      | .error e => .error e
      | .ok st2 => option_loop env st2 post := by
  induction pre generalizing st with
  | nil =>
    simp only [option_loop, Except.ok.injEq] at h
    subst h
    simp [option_loop]
  | cons a rest ih =>
    simp only [option_loop] at h
    simp only [List.cons_append, option_loop]
    cases hc : option_case env st a with
    | error e => simp [hc] at h
    | ok s2 =>
      simp only [hc] at h
      simpa using ih s2 h

theorem main_exit_at (env : Env) (st : MainState) (pre : List GetoptResult)
    (r : GetoptResult) (post : List GetoptResult) (e : Exit)
    (h : option_loop env (init env) pre = .ok st)
    (hc : option_case env st r = .error e) :
    main env (pre ++ r :: post) = Run.ofExit e := by
  simp [main, option_loop_append env (init env) st pre r post h, hc]

/-- An option that makes the loop exit does so with status 1, except `h`,
which exits with status 0 after printing the usage text. -/
theorem option_case_error (env : Env) (st : MainState) (r : GetoptResult) (e : Exit)
    (h : option_case env st r = .error e) :
    (r.arg ≠ 'h' ∧ e.code = 1) ∨
    (r.arg = 'h' ∧ e.code = 0 ∧ e.stdout = usage env.program true) := by
  unfold option_case at h
  dsimp only at h
  split_ifs at h <;> simp_all [EXIT_FAILURE, EXIT_SUCCESS, bail] <;>
    (subst h; simp_all)

/-- The effect on the locals of an option that the loop accepts. -/
theorem option_case_ok (env : Env) (st st1 : MainState) (r : GetoptResult)
    (h : option_case env st r = .ok st1) :
    r.arg ≠ 'h' ∧
    st1.hertz = (st.hertz || decide (r.arg = 'f')) ∧
    st1.pflag = (st.pflag || decide (r.arg = 'p')) ∧
    (r.arg = 't' → st1.sample = env.strtod r.optarg ∧
      (env.strtod r.optarg).le_zero = false) ∧
    (r.arg ≠ 't' → st1.sample = st.sample) := by
  unfold option_case at h
  dsimp only at h
  split_ifs at h <;> simp_all <;> (subst h; simp_all)

theorem option_loop_error (env : Env) (st : MainState) (args : List GetoptResult)
    (e : Exit) (h : option_loop env st args = .error e)
    (hh : ∀ r ∈ args, r.arg ≠ 'h') : e.code = 1 := by
  induction args generalizing st with
  | nil => simp [option_loop] at h
  | cons a rest ih =>
    simp only [option_loop] at h
    cases hc : option_case env st a with
    | error e1 =>
      simp only [hc, Except.error.injEq] at h
      subst h
      rcases option_case_error env st a e1 hc with h1 | h1
      · exact h1.2
      · exact absurd h1.1 (hh a (List.mem_cons_self a rest))
    | ok s2 =>
      simp only [hc] at h
      exact ih s2 h (fun r hr => hh r (List.mem_cons_of_mem a hr))

theorem option_loop_ok (env : Env) (st st1 : MainState) (args : List GetoptResult)
    (h : option_loop env st args = .ok st1) :
    (st1.hertz = true ↔ st.hertz = true ∨ ∃ r ∈ args, r.arg = 'f') ∧
    (st1.pflag = true ↔ st.pflag = true ∨ ∃ r ∈ args, r.arg = 'p') ∧
    (∀ r ∈ args, r.arg = 't' → (env.strtod r.optarg).le_zero = false) ∧
    ((∀ r ∈ args, r.arg ≠ 't') → st1.sample = st.sample) := by
  induction args generalizing st with
  | nil =>
    simp only [option_loop, Except.ok.injEq] at h
    subst h
    simp
  | cons a rest ih =>
    simp only [option_loop] at h
    cases hc : option_case env st a with
    | error e1 => simp [hc] at h
    | ok s2 =>
      simp only [hc] at h
      obtain ⟨i1, i2, i3, i4⟩ := ih s2 h
      obtain ⟨_, c2, c3, c4, c5⟩ := option_case_ok env st s2 a hc
      refine ⟨?_, ?_, ?_, ?_⟩
      · rw [i1, c2]; simp [or_assoc]
      · rw [i2, c3]; simp [or_assoc]
      · intro r hr ht
        rcases List.mem_cons.mp hr with h1 | h1
        · subst h1; exact (c4 ht).2
        · exact i3 r h1 ht
      · intro hn
        rw [i4 (fun r hr => hn r (List.mem_cons_of_mem a hr))]
        exact c5 (hn a (List.mem_cons_self a rest))

theorem validate_error (st : MainState) (e : Exit) (h : validate st = .error e) :
    e.code = 1 := by
  unfold validate at h
  split_ifs at h <;> simp_all [EXIT_FAILURE] <;> (subst h; rfl)

theorem validate_ok (st st1 : MainState) (h : validate st = .ok st1) :
    st1 = st ∧ st.sample.is_zero = false ∧ st.hertz = st.pflag := by
  unfold validate at h
  split_ifs at h with h1 h2
  simp only [Except.ok.injEq] at h
  refine ⟨h.symm, by simpa using h1, ?_⟩
  revert h2
  cases st.hertz <;> cases st.pflag <;> simp

/-- A run whose options hold no `h` and whose option loop or validation exits
does so with status 1 before the affinity call and the counter reads. -/
theorem main_fails_of_not_validated (env : Env) (args : List GetoptResult)
    (hh : ∀ r ∈ args, r.arg ≠ 'h')
    (hv : ∀ st, option_loop env (init env) args = .ok st → ∀ st1, validate st ≠ .ok st1) :
    (main env args).exit_code = 1 ∧ (main env args).affinity = none ∧
    (main env args).counter_reads = 0 := by
  unfold main
  cases hl : option_loop env (init env) args with
  | error e =>
    simp [Run.ofExit, option_loop_error env (init env) args e hl hh]
  | ok st =>
    cases hv2 : validate st with
    | error e => simp [hv2, Run.ofExit, validate_error st e hv2]
    | ok st1 => exact absurd hv2 (hv st hl st1)

theorem string_of_three (s : String) (a b c : Char) (h3 : strlen s = 3)
    (h0 : charAt s 0 = a) (h1 : charAt s 1 = b) (h2 : charAt s 2 = c) :
    s = String.mk [a, b, c] := by
  obtain ⟨l⟩ := s
  match l, h3, h0, h1, h2 with
  | [x, y, z], _, h0, h1, h2 =>
    simp only [charAt, List.getD_cons_zero, List.getD_cons_succ] at h0 h1 h2
    subst h0 h1 h2
    rfl

/-! ## The `--prefix` option -/

/-- C2: for every string `s` given as the `--prefix` (`-p`) argument, the option
loop accepts `s` if and only if `s` is exactly `khz`, `mhz` or `ghz`; the
metric then becomes kilo, mega, giga respectively and the prefix flag is set;
for every other `s` the program exits with status 1, the locals (so the prefix
flag) unchanged, before the affinity call and the counter reads. -/
theorem metric_option_accepts_exactly (env : Env) (st : MainState) (s : String) :
    ((∃ st1, option_case env st ⟨'p', s⟩ = .ok st1) ↔
      (s = "khz" ∨ s = "mhz" ∨ s = "ghz")) ∧
    (s = "khz" → option_case env st ⟨'p', s⟩ =
      .ok { st with metric := .kilo, pflag := true, metric_pfx := s }) ∧
    (s = "mhz" → option_case env st ⟨'p', s⟩ =
      .ok { st with metric := .mega, pflag := true, metric_pfx := s }) ∧
    (s = "ghz" → option_case env st ⟨'p', s⟩ =
      .ok { st with metric := .giga, pflag := true, metric_pfx := s }) ∧
    (¬ (s = "khz" ∨ s = "mhz" ∨ s = "ghz") →
      (∃ out, option_case env st ⟨'p', s⟩ = .error ⟨1, out, st⟩) ∧
      ∀ pre post, option_loop env (init env) pre = .ok st →
        (main env (pre ++ ⟨'p', s⟩ :: post)).exit_code = 1 ∧
        (main env (pre ++ ⟨'p', s⟩ :: post)).affinity = none ∧
        (main env (pre ++ ⟨'p', s⟩ :: post)).counter_reads = 0) := by
  have hk : s = "khz" → option_case env st ⟨'p', s⟩ =
      .ok { st with metric := .kilo, pflag := true, metric_pfx := s } := by
    intro h; subst h; rfl
  have hm : s = "mhz" → option_case env st ⟨'p', s⟩ =
      .ok { st with metric := .mega, pflag := true, metric_pfx := s } := by
    intro h; subst h; rfl
  have hg : s = "ghz" → option_case env st ⟨'p', s⟩ =
      .ok { st with metric := .giga, pflag := true, metric_pfx := s } := by
    intro h; subst h; rfl
  have hbad : ¬ (s = "khz" ∨ s = "mhz" ∨ s = "ghz") →
      ∃ out, option_case env st ⟨'p', s⟩ = .error ⟨1, out, st⟩ := by
    intro hn
    unfold option_case
    simp only [show (('p' : Char) = 't') = False by decide,
      show (('p' : Char) = 'c') = False by decide,
      show (('p' : Char) = 'f') = False by decide, if_false, if_true]
    by_cases h3 : (strlen s = 3 && charAt s 1 = 'h' && charAt s 2 = 'z') = true
    · simp only [h3, if_true]
      simp only [Bool.and_eq_true, decide_eq_true_eq] at h3
      obtain ⟨⟨l3, c1⟩, c2⟩ := h3
      by_cases k : charAt s 0 = 'k'
      · exact absurd (Or.inl (string_of_three s _ _ _ l3 k c1 c2)) hn
      by_cases m : charAt s 0 = 'm'
      · exact absurd (Or.inr (Or.inl (string_of_three s _ _ _ l3 m c1 c2))) hn
      by_cases g : charAt s 0 = 'g'
      · exact absurd (Or.inr (Or.inr (string_of_three s _ _ _ l3 g c1 c2))) hn
      simp only [k, m, g, if_false]
      exact ⟨_, rfl⟩
    · simp only [h3]
      exact ⟨_, rfl⟩
  refine ⟨⟨?_, ?_⟩, hk, hm, hg, ?_⟩
  · rintro ⟨st1, h1⟩
    by_contra hn
    obtain ⟨out, h2⟩ := hbad hn
    rw [h2] at h1
    exact Except.noConfusion h1
  · rintro (h | h | h)
    · exact ⟨_, hk h⟩
    · exact ⟨_, hm h⟩
    · exact ⟨_, hg h⟩
  · intro hn
    refine ⟨hbad hn, ?_⟩
    intro pre post hpre
    obtain ⟨out, h2⟩ := hbad hn
    rw [main_exit_at env st pre ⟨'p', s⟩ post _ hpre h2]
    exact ⟨rfl, rfl, rfl⟩

/-- Witness for C2: `xhz`, `kHz`, `khzz` and the empty string are rejected with
status 1 and unchanged locals, `mhz` selects mega. -/
theorem metric_option_accepts_exactly_witness :
    (∃ out, option_case sampleEnv (init sampleEnv) ⟨'p', "xhz"⟩ =
      .error ⟨1, out, init sampleEnv⟩) ∧
    (∃ out, option_case sampleEnv (init sampleEnv) ⟨'p', "kHz"⟩ =
      .error ⟨1, out, init sampleEnv⟩) ∧
    (∃ out, option_case sampleEnv (init sampleEnv) ⟨'p', "khzz"⟩ =
      .error ⟨1, out, init sampleEnv⟩) ∧
    (∃ out, option_case sampleEnv (init sampleEnv) ⟨'p', ""⟩ =
      .error ⟨1, out, init sampleEnv⟩) ∧
    option_case sampleEnv (init sampleEnv) ⟨'p', "mhz"⟩ =
      .ok { init sampleEnv with metric := .mega, pflag := true, metric_pfx := "mhz" } :=
  ⟨((metric_option_accepts_exactly sampleEnv (init sampleEnv) "xhz").2.2.2.2
      (by decide)).1,
   ((metric_option_accepts_exactly sampleEnv (init sampleEnv) "kHz").2.2.2.2
      (by decide)).1,
   ((metric_option_accepts_exactly sampleEnv (init sampleEnv) "khzz").2.2.2.2
      (by decide)).1,
   ((metric_option_accepts_exactly sampleEnv (init sampleEnv) "").2.2.2.2
      (by decide)).1,
   (metric_option_accepts_exactly sampleEnv (init sampleEnv) "mhz").2.2.1 rfl⟩

/-! ## The `--help` option -/

/-- C3 (as stated, refuted): for `--prefix xhz --help` and for
`--time 0 --help` the program exits with status 1 and does not print the
usage text. -/
theorem help_regardless_refuted :
    (main sampleEnv [⟨'p', "xhz"⟩, ⟨'h', ""⟩]).exit_code = 1 ∧
    (main sampleEnv [⟨'p', "xhz"⟩, ⟨'h', ""⟩]).stdout ≠ usage sampleEnv.program true ∧
    (main sampleEnv [⟨'t', "0"⟩, ⟨'h', ""⟩]).exit_code = 1 ∧
    (main sampleEnv [⟨'t', "0"⟩, ⟨'h', ""⟩]).stdout ≠ usage sampleEnv.program true := by
  decide

/-- C3 (amended): for every argument list that contains `--help` (`-h`) in
which the option loop accepts every option that precedes the first `--help`,
whatever options follow it, the program prints the usage text and exits with
status 0, before the affinity call and the counter reads. -/
theorem help_exits_zero_after_accepted_options (env : Env) (st : MainState)
    (pre post : List GetoptResult) (o : String)
    (h : option_loop env (init env) pre = .ok st) :
    main env (pre ++ ⟨'h', o⟩ :: post) =
      { exit_code := 0, stdout := usage env.program true, affinity := none,
        counter_reads := 0, slept := none } := by
  rw [main_exit_at env st pre ⟨'h', o⟩ post
    { code := EXIT_SUCCESS, stdout := usage env.program true, st := st } h rfl]
  rfl

/-- Witness for C3 (amended): `--verbose --time 1 --help --prefix xhz`. -/
theorem help_exits_zero_after_accepted_options_witness :
    option_loop sampleEnv (init sampleEnv) [⟨'v', ""⟩, ⟨'t', "1"⟩] =
      .ok { init sampleEnv with verbose := true, sample := .fin 1 } ∧
    main sampleEnv ([⟨'v', ""⟩, ⟨'t', "1"⟩] ++ ⟨'h', ""⟩ :: [⟨'p', "xhz"⟩]) =
      { exit_code := 0, stdout := usage sampleEnv.program true, affinity := none,
        counter_reads := 0, slept := none } :=
  ⟨rfl,
   help_exits_zero_after_accepted_options sampleEnv
     { init sampleEnv with verbose := true, sample := .fin 1 }
     [⟨'v', ""⟩, ⟨'t', "1"⟩] [⟨'p', "xhz"⟩] "" rfl⟩

/-! ## Validation after the option loop -/

/-- C4: for every argument list without `--help` (`-h`) in which exactly one of
`--freq` (`-f`) and `--prefix` (`-p`) is supplied, the program exits with
status 1 and performs neither the affinity call nor any counter read; and
whenever the measurement stage is reached, the frequency flag is set if and
only if the prefix flag is set (each flag being set exactly when its option
was supplied). -/
theorem freq_and_prefix_go_together (env : Env) (args : List GetoptResult) :
    ((∀ r ∈ args, r.arg ≠ 'h') →
      ((∃ r ∈ args, r.arg = 'f') ↔ ¬ ∃ r ∈ args, r.arg = 'p') →
      (main env args).exit_code = 1 ∧ (main env args).affinity = none ∧
      (main env args).counter_reads = 0) ∧
    ((main env args).affinity ≠ none →
      ∃ st, option_loop env (init env) args = .ok st ∧ validate st = .ok st ∧
        (st.hertz = true ↔ st.pflag = true) ∧
        (st.hertz = true ↔ ∃ r ∈ args, r.arg = 'f') ∧
        (st.pflag = true ↔ ∃ r ∈ args, r.arg = 'p')) := by
  constructor
  · intro hh hx
    apply main_fails_of_not_validated env args hh
    intro st hl st1 hv
    obtain ⟨i1, i2, _, _⟩ := option_loop_ok env (init env) st args hl
    obtain ⟨_, _, v3⟩ := validate_ok st st1 hv
    simp only [init, Bool.false_eq_true, false_or] at i1 i2
    rw [← i1, ← i2, v3] at hx
    exact (iff_not_self hx)
  · intro ha
    unfold main at ha
    cases hl : option_loop env (init env) args with
    | error e => simp [hl, Run.ofExit] at ha
    | ok st =>
      cases hv : validate st with
      | error e => simp [hl, hv, Run.ofExit] at ha
      | ok st1 =>
        obtain ⟨v1, _, v3⟩ := validate_ok st st1 hv
        obtain ⟨i1, i2, _, _⟩ := option_loop_ok env (init env) st args hl
        simp only [init, Bool.false_eq_true, false_or] at i1 i2
        subst v1
        exact ⟨st1, rfl, hv, by rw [v3], i1, i2⟩

/-- Witness for C4: `--time 1 --freq` and `--time 1 --prefix mhz` exit with
status 1 before the measurement. -/
theorem freq_and_prefix_go_together_witness :
    ((main sampleEnv [⟨'t', "1"⟩, ⟨'f', ""⟩]).exit_code = 1 ∧
      (main sampleEnv [⟨'t', "1"⟩, ⟨'f', ""⟩]).affinity = none ∧
      (main sampleEnv [⟨'t', "1"⟩, ⟨'f', ""⟩]).counter_reads = 0) ∧
    ((main sampleEnv [⟨'t', "1"⟩, ⟨'p', "mhz"⟩]).exit_code = 1 ∧
      (main sampleEnv [⟨'t', "1"⟩, ⟨'p', "mhz"⟩]).affinity = none ∧
      (main sampleEnv [⟨'t', "1"⟩, ⟨'p', "mhz"⟩]).counter_reads = 0) :=
  ⟨(freq_and_prefix_go_together sampleEnv [⟨'t', "1"⟩, ⟨'f', ""⟩]).1
      (by decide) (by decide),
   (freq_and_prefix_go_together sampleEnv [⟨'t', "1"⟩, ⟨'p', "mhz"⟩]).1
      (by decide) (by decide)⟩

/-- C5: for every argument list without `--help` (`-h`) in which `--time`
(`-t`) is absent, or in which some `--time` value converts by `strtod` to a
number that is not strictly positive, the program exits with status 1 and
performs neither the affinity call nor any counter read. -/
theorem time_required_and_positive (env : Env) (args : List GetoptResult)
    (hh : ∀ r ∈ args, r.arg ≠ 'h')
    (ht : (∀ r ∈ args, r.arg ≠ 't') ∨
      ∃ r ∈ args, r.arg = 't' ∧
        (env.strtod r.optarg = .ninf ∨ ∃ q, env.strtod r.optarg = .fin q ∧ q ≤ 0)) :
    (main env args).exit_code = 1 ∧ (main env args).affinity = none ∧
    (main env args).counter_reads = 0 := by
  apply main_fails_of_not_validated env args hh
  intro st hl st1 hv
  obtain ⟨_, _, i3, i4⟩ := option_loop_ok env (init env) st args hl
  obtain ⟨_, v2, _⟩ := validate_ok st st1 hv
  rcases ht with hn | ⟨r, hr, hrt, hbad⟩
  · rw [i4 hn] at v2
    simp [init, CDouble.is_zero] at v2
  · have := i3 r hr hrt
    rcases hbad with hb | ⟨q, hb, hq⟩
    · rw [hb] at this; simp [CDouble.le_zero] at this
    · rw [hb] at this
      simp only [CDouble.le_zero, decide_eq_false_iff_not] at this
      exact this hq

/-- Witness for C5: `--proc 0` (no `--time`) and `--time 0`. -/
theorem time_required_and_positive_witness :
    ((main sampleEnv [⟨'c', "0"⟩]).exit_code = 1 ∧
      (main sampleEnv [⟨'c', "0"⟩]).affinity = none ∧
      (main sampleEnv [⟨'c', "0"⟩]).counter_reads = 0) ∧
    ((main sampleEnv [⟨'t', "0"⟩]).exit_code = 1 ∧
      (main sampleEnv [⟨'t', "0"⟩]).affinity = none ∧
      (main sampleEnv [⟨'t', "0"⟩]).counter_reads = 0) :=
  ⟨time_required_and_positive sampleEnv [⟨'c', "0"⟩] (by decide) (Or.inl (by decide)),
   time_required_and_positive sampleEnv [⟨'t', "0"⟩] (by decide)
     (Or.inr ⟨⟨'t', "0"⟩, by decide, rfl, Or.inr ⟨0, by decide, le_refl 0⟩⟩)⟩

/-! ## The measurement -/

theorem floor_three_halves : ⌊(3 / 2 : ℚ)⌋ = 1 := by
  rw [Int.floor_eq_iff]; norm_num

theorem floor_one_half : ⌊(1 / 2 : ℚ)⌋ = 0 := by
  rw [Int.floor_eq_iff]; norm_num

/-- C6 (the code at the failing inputs): with `--time 1 --proc abc` the
unparsable text converts to `0` and processor 0 reaches the affinity call; with
`--time 1 --proc -4294967295` the negative integer is reduced to the `int` 1
and processor 1 reaches the affinity call; both runs end with status 0. -/
theorem proc_unparsable_or_negative_reaches_affinity :
    strtol "abc" = 0 ∧
    (main sampleEnv [⟨'t', "1"⟩, ⟨'c', "abc"⟩]).affinity = some 0 ∧
    (main sampleEnv [⟨'t', "1"⟩, ⟨'c', "abc"⟩]).exit_code = 0 ∧
    strtol "-4294967295" = -4294967295 ∧
    (main sampleEnv [⟨'t', "1"⟩, ⟨'c', "-4294967295"⟩]).affinity = some 1 ∧
    (main sampleEnv [⟨'t', "1"⟩, ⟨'c', "-4294967295"⟩]).exit_code = 0 := by
  decide

/-- C7: for every pair of unsigned 64-bit counter readings `start` and `end`,
the delta that `main` computes equals `(end - start) mod 2^64`; it is the exact
difference `end - start` when `end >= start` and `2^64 - (start - end)` when
`end < start`; in both cases the measurement raises no error (status 0, two
counter reads) and the delta is what the plain output line carries. -/
theorem delta_is_difference_mod_2_64 (env : Env) (st : MainState)
    (hs : env.tsc_start < 2 ^ 64) (he : env.tsc_end < 2 ^ 64)
    (hok : env.affinity_ok st.cpu_id = true) :
    ((sub64 env.tsc_end env.tsc_start : Nat) : Int) =
      ((env.tsc_end : Int) - (env.tsc_start : Int)) % 2 ^ 64 ∧
    (env.tsc_start ≤ env.tsc_end →
      sub64 env.tsc_end env.tsc_start = env.tsc_end - env.tsc_start) ∧
    (env.tsc_end < env.tsc_start →
      sub64 env.tsc_end env.tsc_start = 2 ^ 64 - (env.tsc_start - env.tsc_end)) ∧
    (measure env st).exit_code = 0 ∧ (measure env st).counter_reads = 2 ∧
    (st.hertz = false → st.verbose = false →
      (measure env st).stdout =
        [.ld 0 (asLong (sub64 env.tsc_end env.tsc_start)), .text "\n"]) := by
  refine ⟨?_, ?_, ?_, ?_, ?_, ?_⟩
  · unfold sub64; omega
  · intro h; unfold sub64; omega
  · intro h; unfold sub64; omega
  · simp [measure, hok]
  · simp [measure, hok]
  · intro h1 h2
    simp [measure, hok, h1, h2]

/-- Witness for C7: readings 5000 then 3000 (`end < start`). -/
theorem delta_is_difference_mod_2_64_witness :
    sampleEnv.tsc_start < 2 ^ 64 ∧ sampleEnv.tsc_end < 2 ^ 64 ∧
    sub64 sampleEnv.tsc_end sampleEnv.tsc_start = 2 ^ 64 - (5000 - 3000) ∧
    (measure sampleEnv (init sampleEnv)).exit_code = 0 :=
  ⟨by decide, by decide,
   (delta_is_difference_mod_2_64 sampleEnv (init sampleEnv) (by decide) (by decide)
      rfl).2.2.1 (by decide),
   (delta_is_difference_mod_2_64 sampleEnv (init sampleEnv) (by decide) (by decide)
      rfl).2.2.2.1⟩

/-- What the plain output line is, for every pair of readings: the decimal
text of the delta read as a signed 64-bit integer, which is the decimal text
of the delta itself exactly when the delta is below `2^63`. -/
theorem plain_cycles_line (env : Env) (st : MainState)
    (hok : env.affinity_ok st.cpu_id = true)
    (hf : st.hertz = false) (hv : st.verbose = false) :
    render (measure env st).stdout =
      some (toString (asLong (sub64 env.tsc_end env.tsc_start))
        ++ "\n") ∧
    (sub64 env.tsc_end env.tsc_start < 2 ^ 63 →
      render (measure env st).stdout =
        some (Nat.repr (sub64 env.tsc_end env.tsc_start) ++ "\n")) := by
  have h1 : render (measure env st).stdout =
      some (toString (asLong (sub64 env.tsc_end env.tsc_start))
        ++ "\n") := by
    simp [measure, hok, hf, hv, render, fmt_ld]
  refine ⟨h1, ?_⟩
  intro hlt
  rw [h1]
  have h2 : asLong (sub64 env.tsc_end env.tsc_start) =
      Int.ofNat (sub64 env.tsc_end env.tsc_start) := by
    have hb : sub64 env.tsc_end env.tsc_start < 2 ^ 64 := by
      unfold sub64; omega
    unfold asLong
    rw [Nat.mod_eq_of_lt hb, if_pos hlt]
    rfl
  rw [h2]
  rfl

/-- C8 (the code at the failing inputs): with `--time 1` and counter readings
5000 then 3000 the run succeeds, the unsigned delta is `2^64 - 2000`, and the
single output line is `-2000`, not the decimal text of the delta; with
readings 1000 then `2^63 + 1000` the delta is `2^63` and the line is
`-9223372036854775808`. -/
theorem plain_cycles_line_negative :
    (main sampleEnv [⟨'t', "1"⟩]).exit_code = 0 ∧
    sub64 sampleEnv.tsc_end sampleEnv.tsc_start = 18446744073709549616 ∧
    (main sampleEnv [⟨'t', "1"⟩]).stdout = [.ld 0 (-2000), .text "\n"] ∧
    render (main sampleEnv [⟨'t', "1"⟩]).stdout = some "-2000\n" ∧
    render (main sampleEnv [⟨'t', "1"⟩]).stdout ≠
      some (Nat.repr (sub64 sampleEnv.tsc_end sampleEnv.tsc_start) ++ "\n") ∧
    (main lateEnv [⟨'t', "1"⟩]).exit_code = 0 ∧
    sub64 lateEnv.tsc_end lateEnv.tsc_start = 9223372036854775808 ∧
    render (main lateEnv [⟨'t', "1"⟩]).stdout = some "-9223372036854775808\n" := by
  decide

/-- C9 (the code at the failing inputs): with `--time 1.5 --freq --prefix ghz`
the program asks `sleep` for 1 second while `scale` receives 3/2 as divisor;
with `--time 0.5` it asks `sleep` for 0 seconds. -/
theorem sleep_drops_fraction_of_duration :
    (main sampleEnv [⟨'t', "1.5"⟩, ⟨'f', ""⟩, ⟨'p', "ghz"⟩]).slept = some 1 ∧
    (main sampleEnv [⟨'t', "1.5"⟩, ⟨'f', ""⟩, ⟨'p', "ghz"⟩]).stdout =
      [.lf_scale .giga (sub64 3000 5000) (.fin (3 / 2)), .text "\n"] ∧
    (main sampleEnv [⟨'t', "0.5"⟩]).exit_code = 0 ∧
    (main sampleEnv [⟨'t', "0.5"⟩]).slept = some 0 := by
  refine ⟨?_, ?_, ?_, ?_⟩ <;>
    simp [main, option_loop, option_case, sampleEnv, init, validate, measure,
      CDouble.le_zero, CDouble.is_zero, CDouble.toUnsigned, strlen, charAt] <;>
    norm_num [floor_three_halves, floor_one_half]

end Cycles
